import Mathlib

/-!
Verification of the healthyskin server core (src/server/app.py and
src/server/ml/peptide_flags.py).

The embedding follows the Python source. Python floats are modelled as
rationals (ℚ): every float operation the core performs on the decision
path (comparison with literal thresholds, `min`, assignment of literals,
clamping) is exact, so ℚ is a faithful model. The image-statistic
collaborators (`rgb2lab`, pixel means, `sobel`) are out of scope per the
spec; their scalar outputs enter the model as opaque parameters.
Python dicts are modelled as association lists with insert-or-replace
semantics (insertion order preserved, later writes replace in place).
-/

namespace HealthySkin

/-- The ASCII whitespace characters Python's `str.strip()` removes
(Python also strips some further Unicode whitespace; only the ASCII set
is relevant to this model). -/
def pyIsSpace (c : Char) : Bool :=
  c = ' ' || c = '\t' || c = '\n' || c = '\r' || c = '\x0b' || c = '\x0c'

/-- Python `s.strip()`: drop leading and trailing whitespace. -/
def pyStrip (cs : List Char) : List Char :=
  ((cs.dropWhile pyIsSpace).reverse.dropWhile pyIsSpace).reverse

/-- ASCII lowercasing of one character, as Python `str.lower()` acts on
the ASCII range (the only range this application's names use). -/
def pyCharLower (c : Char) : Char :=
  if 'A' ≤ c ∧ c ≤ 'Z' then Char.ofNat (c.toNat + 32) else c

/-- Python `s.lower()`. -/
def pyLower (s : String) : String := String.mk (s.data.map pyCharLower)

/-- Python `s.split(",")`: split into the (always nonempty) list of
comma-separated chunks; `"".split(",")` is `[""]`. -/
def pySplitComma : List Char → List (List Char)
  | [] => [[]]
  | c :: cs =>
    if c = ',' then [] :: pySplitComma cs
    else
      match pySplitComma cs with
      | [] => [[c]]
      | t :: ts => (c :: t) :: ts

/-- Python `min(a, b)` on two floats (modelled in ℚ): the smaller value,
the first argument on ties. -/
def pyMin (a b : ℚ) : ℚ := if b < a then b else a

/-- A safety flag record: `{"code": ..., "message": ..., "severity": ...}`
as appended by `safety_calibration` in src/server/app.py. -/
structure SafetyFlag where
  code : String
  message : String
  severity : String
deriving Repr, DecidableEq

/-- The `params` dict of `safety_calibration`:
`{"mn_length_mm": 0.4, "spf_prompt": 0}`. `spf_prompt` is an int used for
truthiness, kept as `Nat`. -/
structure SafetyParams where
  mn_length_mm : ℚ
  spf_prompt : Nat
deriving Repr, DecidableEq

/-- The state threaded through `safety_calibration`: the accumulated
`flags` list together with the `params` dict. -/
abbrev SafetyState := List SafetyFlag × SafetyParams

/-- Initial state of `safety_calibration`: empty flag list,
`{"mn_length_mm": 0.4, "spf_prompt": 0}`. -/
def safetyInit : SafetyState := ([], { mn_length_mm := 0.4, spf_prompt := 0 })

/-- The `LOWER_MN` flag appended by rule 1. -/
def lowerMNFlag : SafetyFlag :=
  { code := "LOWER_MN"
    message := "Higher pigmentation index / Fitzpatrick — use ≤0.2 mm microneedles."
    severity := "caution" }

/-- The `SITE_LIMIT` flag appended by rule 2. -/
def siteLimitFlag : SafetyFlag :=
  { code := "SITE_LIMIT"
    message := "Peri-orbital area: keep microneedles ≤0.2 mm."
    severity := "info" }

/-- The `SPF` flag appended by rule 3. -/
def spfFlag : SafetyFlag :=
  { code := "SPF"
    message := "Strict daily SPF recommended to reduce PIH risk."
    severity := "info" }

/-- Rule 1 of `safety_calibration`:
`if mi > 35.0 or fitz >= 4:` set `mn_length_mm = 0.2`, `spf_prompt = 1`,
append `LOWER_MN` (caution). -/
def safetyRule1 (mi : ℚ) (fitz : ℤ) (s : SafetyState) : SafetyState :=
  if mi > 35 ∨ fitz ≥ 4 then
    (s.1 ++ [lowerMNFlag], { mn_length_mm := 0.2, spf_prompt := 1 })
  else s

/-- Rule 2 of `safety_calibration`:
`if site.lower() in ("eye", "periorbital"):` set
`mn_length_mm = min(mn_length_mm, 0.2)`, append `SITE_LIMIT` (info). -/
def safetyRule2 (site : String) (s : SafetyState) : SafetyState :=
  if pyLower site = "eye" ∨ pyLower site = "periorbital" then
    (s.1 ++ [siteLimitFlag], { s.2 with mn_length_mm := pyMin s.2.mn_length_mm 0.2 })
  else s

/-- Rule 3 of `safety_calibration`:
`if params["spf_prompt"]:` append `SPF` (info). Truthiness of the int. -/
def safetyRule3 (s : SafetyState) : SafetyState :=
  if s.2.spf_prompt ≠ 0 then (s.1 ++ [spfFlag], s.2) else s

/-- `safety_calibration(mi, fitz, site)` from src/server/app.py: the three
rules applied in order to the initial state, returning `(flags, params)`. -/
def safety_calibration (mi : ℚ) (fitz : ℤ) (site : String) : SafetyState :=
  safetyRule3 (safetyRule2 site (safetyRule1 mi fitz safetyInit))

/-- `PeptideInfo` dataclass from src/server/ml/peptide_flags.py. -/
structure PeptideInfo where
  name : String
  lipidated : Bool
  net_charge : String
  is_skp : Bool
  approx_mw : ℤ
deriving Repr, DecidableEq

/-- The seed knowledge base `PEPTIDE_KB`, an insertion-ordered dict modelled
as an association list. -/
def PEPTIDE_KB : List (String × PeptideInfo) :=
  [ ("palmitoyl-pentapeptide-4", ⟨"palmitoyl-pentapeptide-4", true, "neutral", false, 802⟩)
  , ("ghk-cu", ⟨"ghk-cu", false, "positive", false, 403⟩)
  , ("acetyl-hexapeptide-8", ⟨"acetyl-hexapeptide-8", false, "neutral", false, 889⟩)
  , ("matrixyl-3000", ⟨"matrixyl-3000", true, "neutral", false, 1000⟩)
  , ("td-1", ⟨"td-1", false, "neutral", true, 1200⟩) ]

/-- A Python value that is either a bool or a string; the `charged` field of
a feature record is `True`/`False` for known peptides and the string
`"unknown"` for unrecognized ones. -/
inductive PyBoolOrStr where
  | pybool (b : Bool)
  | pystr (s : String)
deriving Repr, DecidableEq

/-- The per-peptide feature record emitted by `flags_from_list`. -/
structure PeptideFlags where
  lipidated : Bool
  charged : PyBoolOrStr
  net_charge : String
  is_skp : Bool
  over_500_Da : Bool
  approx_mw : ℤ
deriving Repr, DecidableEq

/-- Dict lookup on an association list: `d.get(k)`. -/
def dictGet (k : String) : List (String × α) → Option α
  | [] => none
  | (k', v) :: rest => if k' = k then some v else dictGet k rest

/-- Dict write `d[k] = v` on an association list: replaces the value in
place if the key is present (Python dicts keep first-insertion order),
otherwise appends the new entry at the end. -/
def dictSet (k : String) (v : α) : List (String × α) → List (String × α)
  | [] => [(k, v)]
  | (k', v') :: rest =>
      if k' = k then (k, v) :: rest else (k', v') :: dictSet k v rest

/-- The parsed name list of `flags_from_list`:
`[s.strip().lower() for s in csv_names.split(",") if s.strip()]`. -/
def parseNames (csv_names : String) : List String :=
  (((pySplitComma csv_names.data).map pyStrip).filter (· ≠ [])).map
    (fun t => String.mk (t.map pyCharLower))

/-- The feature record `flags_from_list` stores for one (already
normalized) name: the found branch derives it from the KB entry, the
not-found branch emits the cautious default. -/
def flagsFor (kb : List (String × PeptideInfo)) (raw : String) : PeptideFlags :=
  match dictGet raw kb with
  | some info =>
      { lipidated := info.lipidated
        charged := .pybool (info.net_charge = "positive" ∨ info.net_charge = "negative")
        net_charge := info.net_charge
        is_skp := info.is_skp
        over_500_Da := info.approx_mw > 500
        approx_mw := info.approx_mw }
  | none =>
      { lipidated := false
        charged := .pystr "unknown"
        net_charge := "unknown"
        is_skp := false
        over_500_Da := true
        approx_mw := 600 }

/-- `flags_from_list(csv_names)` from src/server/ml/peptide_flags.py:
parse the comma-separated list and build the output dict by the loop
`out[raw] = ...`, reading the module-level `PEPTIDE_KB`. The knowledge
base is passed in explicitly and threaded through the loop unchanged (the
loop body only reads it), so that absence of mutation is visible in the
model; the result pairs the output dict with the knowledge base as left
by the call. -/
def flags_from_list_state (kb : List (String × PeptideInfo)) (csv_names : String) :
    List (String × PeptideFlags) × List (String × PeptideInfo) :=
  (parseNames csv_names).foldl
    (fun acc raw => (dictSet raw (flagsFor acc.2 raw) acc.1, acc.2)) ([], kb)

/-- `flags_from_list` as the caller sees it: the output dict of a call made
against the process-wide `PEPTIDE_KB`. -/
def flags_from_list (csv_names : String) : List (String × PeptideFlags) :=
  (flags_from_list_state PEPTIDE_KB csv_names).1

/-- `np.clip(x, lo, hi)`. -/
def npClip (x lo hi : ℚ) : ℚ := min hi (max lo x)

/-- `melanin_index_rgb` from src/server/app.py, with the mean of the Lab
lightness channel (`rgb2lab` is an out-of-scope collaborator) as an opaque
input: `np.clip(100.0 - L.mean(), 0.0, 100.0)`. -/
def melanin_index_rgb (Lmean : ℚ) : ℚ := npClip (100 - Lmean) 0 100

/-- `erythema_index_rgb` from src/server/app.py, with the mean of the
per-pixel `(r+1)/(g+1)` ratio as an opaque input:
`np.clip(100.0 * (ratio.mean() - 1.0), 0.0, 100.0)`. -/
def erythema_index_rgb (ratioMean : ℚ) : ℚ := npClip (100 * (ratioMean - 1)) 0 100

/-- `pih_risk_proxy(mi, ei, fitz)` from src/server/app.py:
`max(0.0, min(100.0, 0.4*mi + 0.2*ei + 10.0*(fitz-1)))`. -/
def pih_risk_proxy (mi ei : ℚ) (fitz : ℤ) : ℚ :=
  max 0 (min 100 (0.4 * mi + 0.2 * ei + 10 * ((fitz : ℚ) - 1)))

/-- `any(p.get("over_500_Da", True) for p in pep_flags.values())`; every
record produced by the resolver carries the key, so `.get`'s default is
never used and the field is read directly. -/
def any_over500 (pep : List (String × PeptideFlags)) : Bool :=
  pep.any (fun p => p.2.over_500_Da)

/-- `any(p.get("charged") is True for p in pep_flags.values())`: only the
boolean `True` counts, the string `"unknown"` does not. -/
def any_charged (pep : List (String × PeptideFlags)) : Bool :=
  pep.any (fun p => p.2.charged = .pybool true)

/-- `any(p.get("lipidated") for p in pep_flags.values())`. -/
def any_lipidated (pep : List (String × PeptideFlags)) : Bool :=
  pep.any (fun p => p.2.lipidated)

/-- The category-specific `parameters` dict of a recommendation. -/
inductive RecParams where
  | microneedle (length_mm_suggested : ℚ) (frequency : String)
  | iontophoresis (duration_min sessions_per_week : ℕ)
  | vesicular (daily_use : Bool)
  | hydration (occlusion_nights_per_week : ℕ)
deriving Repr, DecidableEq

/-- One recommendation record of the `recs` list built in `analyze`. -/
structure Rec where
  category : String
  rationale : String
  parameters : RecParams
  priority : ℕ
deriving Repr, DecidableEq

/-- The Microneedle recommendation (rule 1 of the engine). -/
def recMicroneedle (mn_length_mm : ℚ) : Rec :=
  { category := "Microneedle"
    rationale := "Bypass stratum corneum for larger peptides (>500 Da)."
    parameters := .microneedle mn_length_mm "1x/week"
    priority := 1 }

/-- The Iontophoresis recommendation (rule 2 of the engine). -/
def recIontophoresis : Rec :=
  { category := "Iontophoresis"
    rationale := "Drive charged peptides with mild current."
    parameters := .iontophoresis 15 1
    priority := 2 }

/-- The Vesicular Carrier recommendation (rule 3 of the engine). -/
def recVesicular : Rec :=
  { category := "Vesicular Carrier"
    rationale := "Improve partitioning using ethosomes/niosomes/transferosomes."
    parameters := .vesicular true
    priority := 3 }

/-- The Hydration & Occlusion recommendation (rule 4 of the engine). -/
def recHydration : Rec :=
  { category := "Hydration & Occlusion"
    rationale := "Increase SC water content to loosen lipid order slightly."
    parameters := .hydration 2
    priority := 4 }

/-- The recommendation engine of `analyze` (src/server/app.py): the four
`if ... recs.append(...)` blocks in order, over the aggregate peptide
signals, the texture-roughness metric `tr`, and the microneedle-length
ceiling `params["mn_length_mm"]` from safety calibration. -/
def recommendations (pep : List (String × PeptideFlags)) (tr mn_length_mm : ℚ) :
    List Rec :=
  (if any_over500 pep then [recMicroneedle mn_length_mm] else []) ++
  (if any_charged pep then [recIontophoresis] else []) ++
  (if any_over500 pep || !any_lipidated pep then [recVesicular] else []) ++
  (if tr > 8 then [recHydration] else [])

/-- The output-dict construction of `flags_from_list` with the knowledge
base fixed: the loop `for raw in names: out[raw] = ...` as a fold. -/
def foldDict (kb : List (String × PeptideInfo)) (names : List String)
    (init : List (String × PeptideFlags)) : List (String × PeptideFlags) :=
  names.foldl (fun out raw => dictSet raw (flagsFor kb raw) out) init

theorem dictGet_dictSet_self {α : Type} (k : String) (v : α) (l : List (String × α)) :
    dictGet k (dictSet k v l) = some v := by
  induction l with
  | nil => simp [dictSet, dictGet]
  | cons hd tl ih =>
    obtain ⟨k', v'⟩ := hd
    by_cases h : k' = k <;> simp [dictSet, dictGet, h, ih]

theorem dictGet_dictSet_ne {α : Type} {k k' : String} (v : α) (l : List (String × α))
    (h : k' ≠ k) : dictGet k (dictSet k' v l) = dictGet k l := by
  induction l with
  | nil => simp [dictSet, dictGet, h]
  | cons hd tl ih =>
    obtain ⟨k'', v''⟩ := hd
    by_cases h2 : k'' = k' <;> by_cases h3 : k'' = k
    all_goals simp_all [dictSet, dictGet]

theorem mem_keys_dictSet {α : Type} (k k' : String) (v : α) (l : List (String × α)) :
    k ∈ (dictSet k' v l).map Prod.fst ↔ k = k' ∨ k ∈ l.map Prod.fst := by
  induction l with
  | nil => simp [dictSet]
  | cons hd tl ih =>
    obtain ⟨k'', v''⟩ := hd
    by_cases h : k'' = k'
    all_goals simp_all [dictSet]
    all_goals tauto

theorem nodup_keys_dictSet {α : Type} (k : String) (v : α) (l : List (String × α))
    (h : (l.map Prod.fst).Nodup) : ((dictSet k v l).map Prod.fst).Nodup := by
  induction l with
  | nil => simp [dictSet]
  | cons hd tl ih =>
    obtain ⟨k', v'⟩ := hd
    simp only [List.map_cons, List.nodup_cons] at h
    by_cases h2 : k' = k
    · subst h2
      simpa [dictSet] using h
    · simp only [dictSet, h2, if_false, List.map_cons, List.nodup_cons]
      refine ⟨fun hmem => ?_, ih h.2⟩
      rcases (mem_keys_dictSet k' k v tl).mp hmem with rfl | hmem2
      · exact h2 rfl
      · exact h.1 hmem2

theorem foldDict_get (kb : List (String × PeptideInfo)) (names : List String)
    (init : List (String × PeptideFlags)) (k : String) :
    dictGet k (foldDict kb names init) =
      if k ∈ names then some (flagsFor kb k) else dictGet k init := by
  induction names generalizing init with
  | nil => simp [foldDict]
  | cons n ns ih =>
    show dictGet k (foldDict kb ns (dictSet n (flagsFor kb n) init)) = _
    rw [ih]
    by_cases hk : k ∈ ns
    · simp [hk]
    · by_cases hkn : k = n
      · subst hkn
        simp [hk, dictGet_dictSet_self]
      · simp [hk, hkn, dictGet_dictSet_ne _ _ (fun h => hkn h.symm)]

theorem foldDict_mem_keys (kb : List (String × PeptideInfo)) (names : List String)
    (init : List (String × PeptideFlags)) (k : String) :
    k ∈ (foldDict kb names init).map Prod.fst ↔
      k ∈ names ∨ k ∈ init.map Prod.fst := by
  induction names generalizing init with
  | nil => simp [foldDict]
  | cons n ns ih =>
    show k ∈ (foldDict kb ns (dictSet n (flagsFor kb n) init)).map Prod.fst ↔ _
    rw [ih, mem_keys_dictSet, List.mem_cons]
    tauto

theorem foldDict_nodup_keys (kb : List (String × PeptideInfo)) (names : List String)
    (init : List (String × PeptideFlags)) (h : (init.map Prod.fst).Nodup) :
    ((foldDict kb names init).map Prod.fst).Nodup := by
  induction names generalizing init with
  | nil => exact h
  | cons n ns ih =>
    exact ih _ (nodup_keys_dictSet n _ init h)

theorem flags_from_list_state_eq (kb : List (String × PeptideInfo)) (csv : String) :
    flags_from_list_state kb csv = (foldDict kb (parseNames csv) [], kb) := by
  suffices h : ∀ (names : List String) (out : List (String × PeptideFlags)),
      names.foldl (fun acc raw => (dictSet raw (flagsFor acc.2 raw) acc.1, acc.2))
        (out, kb) = (foldDict kb names out, kb) by
    exact h (parseNames csv) []
  intro names
  induction names with
  | nil => intro out; rfl
  | cons n ns ih => intro out; exact ih (dictSet n (flagsFor kb n) out)

theorem flags_from_list_eq (csv : String) :
    flags_from_list csv = foldDict PEPTIDE_KB (parseNames csv) [] := by
  rw [flags_from_list, flags_from_list_state_eq]

theorem pyMin_le_left (a b : ℚ) : pyMin a b ≤ a := by
  unfold pyMin
  split_ifs with h
  · exact le_of_lt h
  · exact le_rfl

/-- C1: for every melanin index, Fitzpatrick type, and site string, the
microneedle-length ceiling is at most 0.4 mm (its initial value) after
calibration, and each of the three rules leaves the ceiling less than or
equal to the ceiling before that rule. -/
theorem mn_ceiling_monotone (mi : ℚ) (fitz : ℤ) (site : String) :
    (safetyRule1 mi fitz safetyInit).2.mn_length_mm ≤ safetyInit.2.mn_length_mm ∧
    (safetyRule2 site (safetyRule1 mi fitz safetyInit)).2.mn_length_mm ≤
      (safetyRule1 mi fitz safetyInit).2.mn_length_mm ∧
    (safetyRule3 (safetyRule2 site (safetyRule1 mi fitz safetyInit))).2.mn_length_mm ≤
      (safetyRule2 site (safetyRule1 mi fitz safetyInit)).2.mn_length_mm ∧
    (safety_calibration mi fitz site).2.mn_length_mm ≤ 0.4 := by
  have hA : ∀ s : SafetyState, (safetyRule2 site s).2.mn_length_mm ≤ s.2.mn_length_mm := by
    intro s
    unfold safetyRule2
    split_ifs
    · exact pyMin_le_left _ _
    · exact le_rfl
  have hB : ∀ s : SafetyState, (safetyRule3 s).2.mn_length_mm = s.2.mn_length_mm := by
    intro s
    unfold safetyRule3
    split_ifs <;> rfl
  have hC : (safetyRule1 mi fitz safetyInit).2.mn_length_mm ≤ 0.4 := by
    unfold safetyRule1 safetyInit
    split_ifs
    · norm_num
    · simp
  refine ⟨?_, hA _, (hB _).le, ?_⟩
  · simpa [safetyInit] using hC
  · calc (safety_calibration mi fitz site).2.mn_length_mm
        = (safetyRule2 site (safetyRule1 mi fitz safetyInit)).2.mn_length_mm := hB _
      _ ≤ (safetyRule1 mi fitz safetyInit).2.mn_length_mm := hA _
      _ ≤ 0.4 := hC

/-- C4: with melanin index 40.0, Fitzpatrick 2 and site "periorbital",
safety calibration returns exactly the three flags LOWER_MN (caution),
SITE_LIMIT (info), SPF (info) in that order, with final microneedle
ceiling 0.2 mm and SPF prompt set. -/
theorem scenario_d_periorbital :
    safety_calibration 40 2 "periorbital" =
      ([lowerMNFlag, siteLimitFlag, spfFlag], { mn_length_mm := 0.2, spf_prompt := 1 }) := by
  have h1 : ((40 : ℚ) > 35 ∨ ((2 : ℤ) ≥ 4)) := Or.inl (by norm_num)
  have h2 : pyLower "periorbital" = "eye" ∨ pyLower "periorbital" = "periorbital" :=
    Or.inr (by decide)
  have h3 : (35 : ℚ) < 40 := by norm_num
  have h4 : ¬((0.2 : ℚ) < 0.2) := by norm_num
  simp [safety_calibration, safetyRule1, safetyRule2, safetyRule3, safetyInit, h1, h2,
    h3, h4, pyMin]

/-- C10: in every safety-calibration output, the SPF flag appears iff the
LOWER_MN flag appears, and the SPF flag appears iff it is the last flag of
the sequence. -/
theorem spf_iff_lower_mn (mi : ℚ) (fitz : ℤ) (site : String) :
    ("SPF" ∈ (safety_calibration mi fitz site).1.map SafetyFlag.code ↔
      "LOWER_MN" ∈ (safety_calibration mi fitz site).1.map SafetyFlag.code) ∧
    ("SPF" ∈ (safety_calibration mi fitz site).1.map SafetyFlag.code ↔
      ((safety_calibration mi fitz site).1.map SafetyFlag.code).getLast? = some "SPF") := by
  by_cases h1 : mi > 35 ∨ fitz ≥ 4 <;>
    by_cases h2 : pyLower site = "eye" ∨ pyLower site = "periorbital"
  all_goals
    simp [safety_calibration, safetyRule1, safetyRule2, safetyRule3, safetyInit, h1, h2,
      lowerMNFlag, siteLimitFlag, spfFlag, pyMin]

/-- C7: the melanin index, the erythema index, and the PIH-risk proxy all
lie in [0, 100], for every value of the opaque image statistics and every
Fitzpatrick integer, in or out of range. -/
theorem metrics_within_range (Lmean ratioMean mi ei : ℚ) (fitz : ℤ) :
    (0 ≤ melanin_index_rgb Lmean ∧ melanin_index_rgb Lmean ≤ 100) ∧
    (0 ≤ erythema_index_rgb ratioMean ∧ erythema_index_rgb ratioMean ≤ 100) ∧
    (0 ≤ pih_risk_proxy mi ei fitz ∧ pih_risk_proxy mi ei fitz ≤ 100) := by
  simp only [melanin_index_rgb, erythema_index_rgb, pih_risk_proxy, npClip]
  refine ⟨⟨le_min (by norm_num) (le_max_left _ _), min_le_left _ _⟩,
    ⟨le_min (by norm_num) (le_max_left _ _), min_le_left _ _⟩,
    ⟨le_max_left _ _, max_le (by norm_num) (min_le_left _ _)⟩⟩

/-- C2: every parsed peptide name that is not a key of the knowledge base
is mapped by the resolver to exactly the cautious-default record
lipidated=false, charged="unknown", net_charge="unknown", is_skp=false,
over_500_Da=true, approx_mw=600. -/
theorem unknown_peptide_defaults (csv name : String)
    (hmem : name ∈ parseNames csv) (hkb : dictGet name PEPTIDE_KB = none) :
    dictGet name (flags_from_list csv) =
      some { lipidated := false, charged := .pystr "unknown", net_charge := "unknown",
             is_skp := false, over_500_Da := true, approx_mw := 600 } := by
  rw [flags_from_list_eq, foldDict_get, if_pos hmem]
  simp [flagsFor, hkb]

/-- Witness for C2 at the concrete unknown name "xyz-123". -/
theorem unknown_peptide_defaults_witness :
    "xyz-123" ∈ parseNames "xyz-123" ∧
    dictGet "xyz-123" PEPTIDE_KB = none ∧
    dictGet "xyz-123" (flags_from_list "xyz-123") =
      some { lipidated := false, charged := .pystr "unknown", net_charge := "unknown",
             is_skp := false, over_500_Da := true, approx_mw := 600 } :=
  ⟨by decide, by decide,
    unknown_peptide_defaults "xyz-123" "xyz-123" (by decide) (by decide)⟩

/-- C3: for the single unknown peptide "xyz-123", the resolver emits the
cautious-default record; the any-over-500 aggregate is true so Microneedle
and Vesicular Carrier are both emitted, while the any-charged aggregate is
false (the "unknown" sentinel is not boolean true) so Iontophoresis is
never emitted, whatever the texture metric and ceiling. -/
theorem scenario_e_unknown_peptide (tr mn : ℚ) :
    flags_from_list "xyz-123" =
      [("xyz-123", { lipidated := false, charged := .pystr "unknown",
                     net_charge := "unknown", is_skp := false,
                     over_500_Da := true, approx_mw := 600 })] ∧
    any_over500 (flags_from_list "xyz-123") = true ∧
    any_charged (flags_from_list "xyz-123") = false ∧
    "Microneedle" ∈ (recommendations (flags_from_list "xyz-123") tr mn).map Rec.category ∧
    "Vesicular Carrier" ∈ (recommendations (flags_from_list "xyz-123") tr mn).map Rec.category ∧
    "Iontophoresis" ∉ (recommendations (flags_from_list "xyz-123") tr mn).map Rec.category := by
  have hov : any_over500 (flags_from_list "xyz-123") = true := by decide
  have hch : any_charged (flags_from_list "xyz-123") = false := by decide
  refine ⟨by decide, hov, hch, ?_, ?_, ?_⟩
  all_goals
    by_cases h4 : tr > 8 <;>
      simp [recommendations, hov, hch, h4, recMicroneedle, recIontophoresis,
        recVesicular, recHydration]

/-- C5: for an empty peptide list and texture roughness 9.0, all three
aggregates are false, yet the engine emits exactly Vesicular Carrier
(priority 3, via the vacuously true NOT any-lipidated disjunct) followed
by Hydration & Occlusion (priority 4, via roughness > 8.0), for every
microneedle ceiling. -/
theorem scenario_c_empty_list (mn : ℚ) :
    any_over500 (flags_from_list "") = false ∧
    any_charged (flags_from_list "") = false ∧
    any_lipidated (flags_from_list "") = false ∧
    recommendations (flags_from_list "") 9 mn = [recVesicular, recHydration] := by
  have h9 : ((9 : ℚ) > 8) := by norm_num
  refine ⟨by decide, by decide, by decide, ?_⟩
  simp [recommendations, h9, (by decide : any_over500 (flags_from_list "") = false),
    (by decide : any_charged (flags_from_list "") = false),
    (by decide : any_lipidated (flags_from_list "") = false)]

/-- C6: for every peptide-flag dict, texture roughness and ceiling, the
emitted recommendations have strictly increasing priorities in list order,
and no category appears twice. -/
theorem rec_priorities_strictly_increasing
    (pep : List (String × PeptideFlags)) (tr mn : ℚ) :
    List.Pairwise (fun a b => a.priority < b.priority) (recommendations pep tr mn) ∧
    ((recommendations pep tr mn).map Rec.category).Nodup := by
  cases h1 : any_over500 pep <;> cases h2 : any_charged pep <;>
    cases h3 : any_lipidated pep <;> by_cases h4 : tr > 8
  all_goals
    simp [recommendations, h1, h2, h3, h4, recMicroneedle, recIontophoresis,
      recVesicular, recHydration]

/-- C8: the resolver's output dict has no duplicate keys, and its key set
is exactly the set of parsed (split, trimmed, lowercased, non-empty)
names — recognized or not. -/
theorem resolver_key_set (csv : String) :
    ((flags_from_list csv).map Prod.fst).Nodup ∧
    ∀ k, k ∈ (flags_from_list csv).map Prod.fst ↔ k ∈ parseNames csv := by
  rw [flags_from_list_eq]
  refine ⟨foldDict_nodup_keys _ _ _ (by simp), fun k => ?_⟩
  rw [foldDict_mem_keys]
  simp

/-- C9: the resolver leaves the knowledge base exactly as it found it, and
a second call on the resulting state with the same input string produces
the same output dict. -/
theorem resolver_idempotent (csv : String) :
    (flags_from_list_state PEPTIDE_KB csv).2 = PEPTIDE_KB ∧
    (flags_from_list_state (flags_from_list_state PEPTIDE_KB csv).2 csv).1 =
      (flags_from_list_state PEPTIDE_KB csv).1 := by
  simp [flags_from_list_state_eq]

end HealthySkin
